import Mathlib

/-!
Verification of the uptime-monitor core (Go repository
`Website-Uptime-Monitoring-Tools`) against its specification.

This file gives a shallow embedding of the data model of the program and the
operations named by the claims, translated from the source files:

* `monitor` package (`controllers/website.go`, lines 958-1221 of the
  concatenated file): `Website`, `CheckResult`, `MonitorEngine` with
  `AddWebsite`, `UpdateWebsiteStatus`, `Start`, `checkWebsite`,
  `processResults`.
* the result-processing goroutine in `main` (lines 884-920): the
  previous-status table and transition-event construction.
* `notification` package: `StatusChangeEvent`, `NotificationManager`
  with `SendStatusChange` (5-minute throttle, bounded queue of 100).
* `storage` package: `HistoryEntry`, `SaveHistory` (1000-entry cap),
  `LoadWebsites`, `GetRecentHistory`, `CalculateUptime`.
* `WebsiteController.Post` / `WebsiteController.Put` (interval coercion
  and the update frame).

Go `time.Time` values are modelled as integer timestamps in seconds
(`time.Since t = now - t`; five minutes = 300 seconds; an hour = 3600
seconds).  Go maps are modelled as functions into `Option`.  Statuses
are the literal strings `"up"`, `"down"`, `"unknown"` the Go code uses.
-/

namespace UptimeMonitor

/-- `monitor.Website` (controllers/website.go, struct at lines 970-981).
`LastCheckTime : time.Time` is an integer timestamp here. -/
structure Website where
  id : String
  name : String
  url : String
  intervalSeconds : Int
  status : String
  lastCheckTime : Int
  lastResponseTime : Int
  notificationEmails : List String
  slackWebhook : String
  enabled : Bool
deriving Repr, DecidableEq

/-- `monitor.CheckResult` (lines 984-990). `Error error` becomes
`Option String` (none = nil error). -/
structure CheckResult where
  websiteID : String
  status : String
  responseTime : Int
  timestamp : Int
  error : Option String
deriving Repr, DecidableEq

/-- The engine field `websites map[string]*Website`, as a function map. -/
abbrev Registry := String → Option Website

/-- `notification.StatusChangeEvent` (notification.go lines 48-58). -/
structure StatusChangeEvent where
  websiteID : String
  websiteName : String
  websiteURL : String
  oldStatus : String
  newStatus : String
  responseTime : Int
  timestamp : Int
  emails : List String
  slackWebhook : String
deriving Repr, DecidableEq

/-- `storage.HistoryEntry` (storage file lines 15-19). -/
structure HistoryEntry where
  timestamp : Int
  status : String
  responseTime : Int
deriving Repr, DecidableEq

/-! ## Controller operations (`WebsiteController.Post` / `.Put`) -/

/-- `CreateWebsiteRequest` (controllers/website.go lines 40-46). -/
structure CreateWebsiteRequest where
  name : String
  url : String
  intervalSeconds : Int
  notificationEmails : List String
  slackWebhook : String
deriving Repr, DecidableEq

/-- `UpdateWebsiteRequest` (controllers/website.go lines 49-56). -/
structure UpdateWebsiteRequest where
  name : String
  url : String
  intervalSeconds : Int
  notificationEmails : List String
  slackWebhook : String
  enabled : Bool
deriving Repr, DecidableEq

/-- The website built by `WebsiteController.Post` (lines 169-187): an
interval below 30 is replaced by 60, the status starts `"unknown"`,
`LastCheckTime` is the zero time and the target is enabled. -/
def Post (r : CreateWebsiteRequest) (id : String) : Website :=
  let interval := if r.intervalSeconds < 30 then 60 else r.intervalSeconds
  { id := id
    name := r.name
    url := r.url
    intervalSeconds := interval
    status := "unknown"
    lastCheckTime := 0
    lastResponseTime := 0
    notificationEmails := r.notificationEmails
    slackWebhook := r.slackWebhook
    enabled := true }

/-- The in-place update performed by `WebsiteController.Put`
(lines 230-242): name and URL only overwritten when non-empty, the
interval only overwritten when at least 30, while the email list, the
webhook and the enabled flag are overwritten unconditionally. -/
def Put (w : Website) (r : UpdateWebsiteRequest) : Website :=
  let w1 := if r.name ≠ "" then { w with name := r.name } else w
  let w2 := if r.url ≠ "" then { w1 with url := r.url } else w1
  let w3 := if r.intervalSeconds ≥ 30 then { w2 with intervalSeconds := r.intervalSeconds } else w2
  { w3 with
    notificationEmails := r.notificationEmails
    slackWebhook := r.slackWebhook
    enabled := r.enabled }

/-! ## Storage operations -/

/-- `storage.SaveHistory` (storage file lines 101-138), restricted to
its pure list transformation: append the new entry, then keep only the
last 1000 entries when the length exceeds 1000. -/
def SaveHistory (history : List HistoryEntry) (entry : HistoryEntry) : List HistoryEntry :=
  let h := history ++ [entry]
  if h.length > 1000 then h.drop (h.length - 1000) else h

/-- One element of the stored `websites.json` array: either a record
that unmarshals into a `Website`, or a malformed one on which
`json.Unmarshal` reports an error. -/
inductive StoredRecord where
  | valid (w : Website)
  | malformed
deriving Repr, DecidableEq

/-- `storage.LoadWebsites` (storage file lines 71-98).  A missing file
(`none`) yields an empty set.  Otherwise the whole array is passed to
`json.Unmarshal`; if any element is malformed, `Unmarshal` returns a
non-nil error and `LoadWebsites` returns `nil, error`, discarding
everything.  Only when every record is well-formed is the full list
returned. -/
def LoadWebsites (file : Option (List StoredRecord)) : Except String (List Website) :=
  match file with
  | none => Except.ok []
  | some records =>
      if records.any (fun r => match r with | .malformed => true | .valid _ => false) then
        Except.error "failed to unmarshal websites"
      else
        Except.ok (records.filterMap (fun r => match r with | .valid w => some w | .malformed => none))

/-- `storage.GetRecentHistory` (storage file lines 167-184): keep the
entries whose timestamp is strictly after `now - hours` hours. -/
def GetRecentHistory (history : List HistoryEntry) (now : Int) (hours : Int) : List HistoryEntry :=
  history.filter (fun e => decide (now - hours * 3600 < e.timestamp))

/-- `storage.CalculateUptime` (storage file lines 201-219): 100 when no
samples lie in the window, otherwise `upCount / total * 100`. -/
def CalculateUptime (history : List HistoryEntry) (now : Int) (hours : Int) : ℚ :=
  let recent := GetRecentHistory history now hours
  if recent.length = 0 then 100
  else ((recent.countP (fun e => e.status == "up") : ℚ) / (recent.length : ℚ)) * 100

/-! ## Probe (`MonitorEngine.checkWebsite`, lines 1151-1201) -/

/-- What the network did for one probe: either `http.NewRequest` failed,
or `httpClient.Do` returned a transport error, or a response arrived
with an HTTP status code after a measured round-trip. -/
inductive ProbeNet where
  | buildError (detail : String)
  | transportError (detail : String)
  | response (code : Int) (elapsedMs : Int)
deriving Repr, DecidableEq

/-- `MonitorEngine.checkWebsite` (lines 1151-1201) as a function of the
network behaviour.  A request-construction failure sends a `down` result
with latency 0; a transport error likewise (the measured time is
overwritten by 0); a response is `up` exactly when its code is in
[200, 400), with the measured round-trip as latency.  The function is
total: every branch yields exactly one `CheckResult`, mirroring that the
Go method never returns an error and always sends one result. -/
def checkWebsite (w : Website) (net : ProbeNet) (now : Int) : CheckResult :=
  match net with
  | .buildError d =>
      { websiteID := w.id, status := "down", responseTime := 0
        timestamp := now, error := some d }
  | .transportError d =>
      { websiteID := w.id, status := "down", responseTime := 0
        timestamp := now, error := some d }
  | .response code elapsedMs =>
      { websiteID := w.id
        status := if 200 ≤ code ∧ code < 400 then "up" else "down"
        responseTime := elapsedMs
        timestamp := now
        error := none }

/-! ## Registry update and the result processor of the engine -/

/-- `MonitorEngine.UpdateWebsiteStatus` (lines 1076-1085): overwrite
status, last response time and last-check time iff the id is present. -/
def UpdateWebsiteStatus (reg : Registry) (id status : String)
    (responseTime now : Int) : Registry :=
  fun k =>
    if k = id then
      match reg id with
      | some w => some { w with status := status, lastResponseTime := responseTime,
                                lastCheckTime := now }
      | none => none
    else reg k

/-- `MonitorEngine.processResults` (lines 1204-1220) over a finite
sequence of results, each paired with the time at which it is processed
(the `time.Now()` inside `UpdateWebsiteStatus`). -/
def processResults (reg : Registry) (results : List (CheckResult × Int)) : Registry :=
  results.foldl (fun acc p => UpdateWebsiteStatus acc p.1.websiteID p.1.status p.1.responseTime p.2) reg

/-! ## Monitor engine lifecycle (`AddWebsite`, `Start`) -/

/-- The scheduler-relevant state of `MonitorEngine`: the registry, which
target ids have a monitoring goroutine (`monitorWebsite` loop) running,
and the `running` flag. -/
structure MonitorEngineState where
  websites : Registry
  loops : String → Bool
  running : Bool

/-- `NewMonitorEngine` (lines 1004-1038): empty registry, no loops,
not running. -/
def NewMonitorEngine : MonitorEngineState :=
  { websites := fun _ => none, loops := fun _ => false, running := false }

/-- `MonitorEngine.AddWebsite` (lines 1041-1045): inserts the record
into the map.  Nothing else: no goroutine is launched. -/
def AddWebsite (st : MonitorEngineState) (w : Website) : MonitorEngineState :=
  { st with websites := fun k => if k = w.id then some w else st.websites k }

/-- `MonitorEngine.Start` (lines 1088-1106): a no-op when already
running; otherwise sets `running` and launches one `monitorWebsite`
goroutine for every currently registered, enabled website. -/
def Start (st : MonitorEngineState) : MonitorEngineState :=
  if st.running then st
  else
    { st with
      running := true
      loops := fun k =>
        st.loops k ||
          (match st.websites k with
           | some w => w.enabled
           | none => false) }

/-! ## Result-processing goroutine in `main` (lines 884-920) -/

/-- `previousStatus map[string]string` in the goroutine. -/
abbrev PrevStatusTable := String → Option String

/-- The event the goroutine hands to `SendStatusChange` for one drained
result, if any (lines 900-916): it requires a previous status to exist,
to differ from the new status, and the website to still be found in the
registry; the event copies name, URL and notification routing from the
current registry record. -/
def transitionEventOf (prev : PrevStatusTable) (reg : Registry)
    (r : CheckResult) : Option StatusChangeEvent :=
  match prev r.websiteID with
  | some p =>
      if p ≠ r.status then
        match reg r.websiteID with
        | some w =>
            some { websiteID := r.websiteID
                   websiteName := w.name
                   websiteURL := w.url
                   oldStatus := p
                   newStatus := r.status
                   responseTime := r.responseTime
                   timestamp := r.timestamp
                   emails := w.notificationEmails
                   slackWebhook := w.slackWebhook }
        | none => none
      else none
  | none => none

/-- Line 918: `previousStatus[result.WebsiteID] = result.Status`,
executed after every drained result, whether or not an event fired. -/
def updatePrevStatus (prev : PrevStatusTable) (r : CheckResult) : PrevStatusTable :=
  fun k => if k = r.websiteID then some r.status else prev k

/-! ## Notification dispatcher (`notification.go`) -/

/-- The dispatcher state touched by `SendStatusChange`: the
`lastNotified map[string]time.Time` throttle table and the buffered
`eventQueue` (capacity 100, line 75). -/
structure NotificationManagerState where
  lastNotified : String → Option Int
  eventQueue : List StatusChangeEvent

/-- `make(chan StatusChangeEvent, 100)` — the capacity of the queue. -/
def eventQueueCapacity : Nat := 100

/-- The throttle test of lines 112-118:
`exists && time.Since(lastNotified) < 5*time.Minute`. -/
def throttledAt (st : NotificationManagerState) (now : Int) (id : String) : Bool :=
  match st.lastNotified id with
  | some t => decide (now - t < 300)
  | none => false

/-- `NotificationManager.SendStatusChange` (lines 110-129).  A throttled
event is dropped with no state change.  Otherwise a non-blocking send is
attempted: with room in the queue the event is appended and the throttle
timestamp set to `now`; with a full queue the event is dropped with a
warning and the state is unchanged. -/
def SendStatusChange (st : NotificationManagerState) (now : Int)
    (e : StatusChangeEvent) : NotificationManagerState :=
  if throttledAt st now e.websiteID then st
  else if st.eventQueue.length < eventQueueCapacity then
    { lastNotified := fun k => if k = e.websiteID then some now else st.lastNotified k
      eventQueue := st.eventQueue ++ [e] }
  else st

/-! ## Concrete sample data used by witnesses and counterexamples -/

/-- A registered, enabled target with a 90-second interval. -/
def sampleSite : Website :=
  { id := "website_1", name := "Example", url := "https://www.example.com"
    intervalSeconds := 90, status := "up", lastCheckTime := 0
    lastResponseTime := 120, notificationEmails := ["ops@example.com"]
    slackWebhook := "", enabled := true }

/-- A second well-formed target. -/
def siteB : Website :=
  { id := "website_2", name := "Example B", url := "https://www.example.org"
    intervalSeconds := 60, status := "unknown", lastCheckTime := 0
    lastResponseTime := 0, notificationEmails := [], slackWebhook := ""
    enabled := true }

/-- A create request with an interval below 30. -/
def sampleCreate : CreateWebsiteRequest :=
  { name := "Example", url := "https://www.example.com", intervalSeconds := 10
    notificationEmails := [], slackWebhook := "" }

/-- An update request with an interval below 30 (and non-empty name/URL). -/
def lowIntervalUpdate : UpdateWebsiteRequest :=
  { name := "Example", url := "https://www.example.com", intervalSeconds := 10
    notificationEmails := [], slackWebhook := "", enabled := true }

/-- An update request leaving name, URL and interval fields at their Go
zero values, as produced by a JSON body omitting them. -/
def resetUpdate : UpdateWebsiteRequest :=
  { name := "", url := "", intervalSeconds := 0
    notificationEmails := [], slackWebhook := "", enabled := false }

/-! ## Theorems -/

/-- C5 counterexample: an existing target with interval 90 updated by a
request carrying interval 10 keeps interval 90 — `Put` does not coerce a
below-30 interval to 60, contrary to the claim. -/
theorem put_low_interval_not_coerced :
    lowIntervalUpdate.intervalSeconds < 30 ∧
    (Put sampleSite lowIntervalUpdate).intervalSeconds = 90 ∧
    (Put sampleSite lowIntervalUpdate).intervalSeconds ≠ 60 := by
  refine ⟨by decide, by decide, by decide⟩

/-- C5 (amended): a create request with interval strictly below 30
stores interval 60; an update request with interval strictly below 30
leaves the stored interval unchanged (it is not coerced to 60). -/
theorem interval_coercion (r : CreateWebsiteRequest) (id : String)
    (w : Website) (u : UpdateWebsiteRequest)
    (hr : r.intervalSeconds < 30) (hu : u.intervalSeconds < 30) :
    (Post r id).intervalSeconds = 60 ∧
    (Put w u).intervalSeconds = w.intervalSeconds := by
  constructor
  · simp [Post, if_pos hr]
  · have h30 : ¬ (u.intervalSeconds ≥ 30) := by omega
    simp only [Put, h30, if_false]
    split <;> split <;> rfl

/-- C5 witness: the amended coercion rules at concrete inputs. -/
theorem interval_coercion_witness :
    sampleCreate.intervalSeconds < 30 ∧ lowIntervalUpdate.intervalSeconds < 30 ∧
    ((Post sampleCreate "website_9").intervalSeconds = 60 ∧
     (Put sampleSite lowIntervalUpdate).intervalSeconds = sampleSite.intervalSeconds) :=
  ⟨by decide, by decide,
   interval_coercion sampleCreate "website_9" sampleSite lowIntervalUpdate (by decide) (by decide)⟩

/-- C10: `Put` keeps the stored name when the request name is empty,
the stored URL when the request URL is empty, and the stored interval
when the request interval is below 30, while it always overwrites the
notification email list, the webhook URL and the enabled flag with the
request values. -/
theorem put_frame (w : Website) (r : UpdateWebsiteRequest) :
    (r.name = "" → (Put w r).name = w.name) ∧
    (r.url = "" → (Put w r).url = w.url) ∧
    (r.intervalSeconds < 30 → (Put w r).intervalSeconds = w.intervalSeconds) ∧
    (Put w r).notificationEmails = r.notificationEmails ∧
    (Put w r).slackWebhook = r.slackWebhook ∧
    (Put w r).enabled = r.enabled := by
  refine ⟨?_, ?_, ?_, ?_, ?_, ?_⟩
  · intro h
    simp only [Put, h, ne_eq, not_true_eq_false, if_false]
    split <;> split <;> rfl
  · intro h
    simp only [Put, h, ne_eq, not_true_eq_false, if_false]
    split <;> split <;> rfl
  · intro h
    have h30 : ¬ (r.intervalSeconds ≥ 30) := by omega
    simp only [Put, h30, if_false]
    split <;> split <;> rfl
  · simp only [Put]
  · simp only [Put]
  · simp only [Put]

/-- C10 witness: an update request with empty name/URL, interval 0,
empty email list, empty webhook and enabled = false leaves name, URL and
interval unchanged and resets the routing fields and the flag. -/
theorem put_frame_witness :
    (Put sampleSite resetUpdate).name = sampleSite.name ∧
    (Put sampleSite resetUpdate).url = sampleSite.url ∧
    (Put sampleSite resetUpdate).intervalSeconds = sampleSite.intervalSeconds ∧
    (Put sampleSite resetUpdate).notificationEmails = resetUpdate.notificationEmails ∧
    (Put sampleSite resetUpdate).slackWebhook = resetUpdate.slackWebhook ∧
    (Put sampleSite resetUpdate).enabled = resetUpdate.enabled := by
  obtain ⟨h1, h2, h3, h4, h5, h6⟩ := put_frame sampleSite resetUpdate
  exact ⟨h1 rfl, h2 rfl, h3 (by decide), h4, h5, h6⟩

/-- C3: a probe check always yields exactly one outcome for the checked
target, mapped deterministically: a request-construction or transport
error yields status `down` with latency 0 and the error recorded; a
response with code in [200, 400) yields `up` with the measured
round-trip; a response with code outside [200, 400) yields `down` with
the measured round-trip.  Totality of `checkWebsite` reflects that the
Go method never returns an error to its caller. -/
theorem checkWebsite_outcome (w : Website) (net : ProbeNet) (now : Int) :
    (checkWebsite w net now).websiteID = w.id ∧
    (∀ d, net = ProbeNet.buildError d →
      (checkWebsite w net now).status = "down" ∧
      (checkWebsite w net now).responseTime = 0 ∧
      (checkWebsite w net now).error = some d) ∧
    (∀ d, net = ProbeNet.transportError d →
      (checkWebsite w net now).status = "down" ∧
      (checkWebsite w net now).responseTime = 0 ∧
      (checkWebsite w net now).error = some d) ∧
    (∀ code elapsedMs, net = ProbeNet.response code elapsedMs → 200 ≤ code → code < 400 →
      (checkWebsite w net now).status = "up" ∧
      (checkWebsite w net now).responseTime = elapsedMs ∧
      (checkWebsite w net now).error = none) ∧
    (∀ code elapsedMs, net = ProbeNet.response code elapsedMs → (code < 200 ∨ 400 ≤ code) →
      (checkWebsite w net now).status = "down" ∧
      (checkWebsite w net now).responseTime = elapsedMs ∧
      (checkWebsite w net now).error = none) := by
  refine ⟨by cases net <;> rfl, ?_, ?_, ?_, ?_⟩
  · rintro d rfl; exact ⟨rfl, rfl, rfl⟩
  · rintro d rfl; exact ⟨rfl, rfl, rfl⟩
  · rintro code elapsedMs rfl h1 h2
    refine ⟨?_, rfl, rfl⟩
    simp only [checkWebsite]
    rw [if_pos ⟨h1, h2⟩]
  · rintro code elapsedMs rfl h
    refine ⟨?_, rfl, rfl⟩
    simp only [checkWebsite]
    rw [if_neg (by omega)]

/-- C3 witness: the outcome mapping at concrete probes — a 200 response
in 42 ms, a 500 response in 42 ms, a transport error. -/
theorem checkWebsite_outcome_witness :
    ((checkWebsite sampleSite (ProbeNet.response 200 42) 5).status = "up" ∧
     (checkWebsite sampleSite (ProbeNet.response 200 42) 5).responseTime = 42 ∧
     (checkWebsite sampleSite (ProbeNet.response 200 42) 5).error = none) ∧
    ((checkWebsite sampleSite (ProbeNet.response 500 42) 5).status = "down" ∧
     (checkWebsite sampleSite (ProbeNet.response 500 42) 5).responseTime = 42 ∧
     (checkWebsite sampleSite (ProbeNet.response 500 42) 5).error = none) ∧
    ((checkWebsite sampleSite (ProbeNet.transportError "timeout") 5).status = "down" ∧
     (checkWebsite sampleSite (ProbeNet.transportError "timeout") 5).responseTime = 0 ∧
     (checkWebsite sampleSite (ProbeNet.transportError "timeout") 5).error = some "timeout") :=
  ⟨(checkWebsite_outcome sampleSite (ProbeNet.response 200 42) 5).2.2.2.1 200 42 rfl
      (by decide) (by decide),
   (checkWebsite_outcome sampleSite (ProbeNet.response 500 42) 5).2.2.2.2 500 42 rfl
      (Or.inr (by decide)),
   (checkWebsite_outcome sampleSite (ProbeNet.transportError "timeout") 5).2.2.1 "timeout" rfl⟩

/-- C9: after `SaveHistory` the stored list has at most 1000 entries, it
is exactly the most recent entries of the appended list (the oldest are
dropped first: the result is the appended list with its first
`length + 1 - 1000` entries removed, which is all of it when under the
cap), and the new entry sits at the end. -/
theorem saveHistory_cap (history : List HistoryEntry) (entry : HistoryEntry) :
    (SaveHistory history entry).length ≤ 1000 ∧
    SaveHistory history entry = (history ++ [entry]).drop (history.length + 1 - 1000) ∧
    (SaveHistory history entry).getLast? = some entry := by
  have hlen : (history ++ [entry]).length = history.length + 1 := by simp
  have hdrop : SaveHistory history entry
      = (history ++ [entry]).drop (history.length + 1 - 1000) := by
    simp only [SaveHistory]
    by_cases h : (history ++ [entry]).length > 1000
    · rw [if_pos h, hlen]
    · rw [if_neg h]
      have hle : history.length + 1 ≤ 1000 := by omega
      rw [Nat.sub_eq_zero_of_le hle, List.drop_zero]
  refine ⟨?_, hdrop, ?_⟩
  · rw [hdrop, List.length_drop, hlen]
    omega
  · rw [hdrop]
    have hle : history.length + 1 - 1000 ≤ history.length := by omega
    rw [List.drop_append_of_le_length hle]
    exact List.getLast?_concat _

/-- C7: the uptime percentage is 100 when the window holds no samples,
and otherwise the number of `"up"` samples over the total, times 100;
for a window of 10 samples of which 7 are up it is exactly 70. -/
theorem calculateUptime_value (history : List HistoryEntry) (now hours : Int) :
    (GetRecentHistory history now hours = [] → CalculateUptime history now hours = 100) ∧
    ((GetRecentHistory history now hours).length ≠ 0 →
      CalculateUptime history now hours =
        ((GetRecentHistory history now hours).countP (fun e => e.status == "up") : ℚ) /
          ((GetRecentHistory history now hours).length : ℚ) * 100) ∧
    ((GetRecentHistory history now hours).length = 10 →
      (GetRecentHistory history now hours).countP (fun e => e.status == "up") = 7 →
      CalculateUptime history now hours = 70) := by
  refine ⟨?_, ?_, ?_⟩
  · intro h
    simp [CalculateUptime, h]
  · intro h
    simp only [CalculateUptime, if_neg h]
  · intro hlen hcount
    have hne : (GetRecentHistory history now hours).length ≠ 0 := by omega
    simp only [CalculateUptime, if_neg hne, hlen, hcount]
    norm_num

/-- Ten history samples inside a one-hour window ending at time 3600,
seven of them `"up"`. -/
def sampleHistory : List HistoryEntry :=
  [⟨10, "up", 100⟩, ⟨20, "up", 110⟩, ⟨30, "down", 0⟩, ⟨40, "up", 90⟩,
   ⟨50, "up", 95⟩, ⟨60, "down", 0⟩, ⟨70, "up", 80⟩, ⟨80, "up", 85⟩,
   ⟨90, "down", 0⟩, ⟨100, "up", 70⟩]

/-- C7 witness: an empty window yields 100; the concrete 10-sample
window with 7 up samples yields 70. -/
theorem calculateUptime_value_witness :
    CalculateUptime [] 0 24 = 100 ∧ CalculateUptime sampleHistory 3600 1 = 70 :=
  ⟨(calculateUptime_value [] 0 24).1 rfl,
   (calculateUptime_value sampleHistory 3600 1).2.2 (by decide) (by decide)⟩

/-- The stored set used against C8: a well-formed record, a malformed
record, another well-formed record. -/
def corruptStore : List StoredRecord :=
  [StoredRecord.valid sampleSite, StoredRecord.malformed, StoredRecord.valid siteB]

/-- A stored set with no malformed record. -/
def cleanStore : List StoredRecord :=
  [StoredRecord.valid sampleSite, StoredRecord.valid siteB]

/-- C8 counterexample: with one malformed record between two well-formed
ones, `LoadWebsites` returns an error for the whole set instead of
loading the two well-formed records. -/
theorem loadWebsites_aborts_on_bad_record :
    LoadWebsites (some corruptStore) = Except.error "failed to unmarshal websites" ∧
    LoadWebsites (some corruptStore) ≠ Except.ok [sampleSite, siteB] := by
  refine ⟨rfl, ?_⟩
  intro h
  rw [show LoadWebsites (some corruptStore)
        = Except.error "failed to unmarshal websites" from rfl] at h
  exact Except.noConfusion h

/-- C8 (amended): a missing file loads an empty set; a stored set
containing any malformed record makes `LoadWebsites` fail as a whole,
loading nothing (the caller logs a warning and continues with zero
targets); only a set with no malformed record is loaded, in full. -/
theorem loadWebsites_all_or_nothing (records : List StoredRecord) :
    LoadWebsites none = Except.ok [] ∧
    (StoredRecord.malformed ∈ records →
      LoadWebsites (some records) = Except.error "failed to unmarshal websites") ∧
    (StoredRecord.malformed ∉ records →
      LoadWebsites (some records)
        = Except.ok (records.filterMap
            (fun r => match r with | .valid w => some w | .malformed => none))) := by
  have hany : (records.any (fun r => match r with | .malformed => true | .valid _ => false)) = true
      ↔ StoredRecord.malformed ∈ records := by
    rw [List.any_eq_true]
    constructor
    · rintro ⟨x, hx, hpx⟩
      cases x with
      | valid w => exact absurd hpx (by simp)
      | malformed => exact hx
    · intro hm
      exact ⟨StoredRecord.malformed, hm, rfl⟩
  refine ⟨rfl, ?_, ?_⟩
  · intro hm
    simp only [LoadWebsites]
    rw [if_pos (hany.mpr hm)]
  · intro hm
    simp only [LoadWebsites]
    rw [if_neg (fun hc => hm (hany.mp hc))]

/-- C8 witness: the all-or-nothing load at concrete stored sets — the
corrupt set fails as a whole, the clean set loads both records. -/
theorem loadWebsites_all_or_nothing_witness :
    StoredRecord.malformed ∈ corruptStore ∧ StoredRecord.malformed ∉ cleanStore ∧
    LoadWebsites (some corruptStore) = Except.error "failed to unmarshal websites" ∧
    LoadWebsites (some cleanStore) = Except.ok [sampleSite, siteB] :=
  ⟨by decide, by decide,
   (loadWebsites_all_or_nothing corruptStore).2.1 (by decide),
   (loadWebsites_all_or_nothing cleanStore).2.2 (by decide)⟩

/-- C6 (code evaluated at the failing input): `AddWebsite` only inserts
the record into the registry — it leaves the set of running check loops
and the running flag untouched, so an enabled target added after `Start`
has no check loop and is never probed.  The final conjunct evaluates the
code at the failing input: a fresh engine is started, then the enabled
`sampleSite` is added, and no loop exists for it. -/
theorem addWebsite_starts_no_loop (st : MonitorEngineState) (w : Website) :
    (AddWebsite st w).loops = st.loops ∧
    (AddWebsite st w).running = st.running ∧
    (AddWebsite st w).websites w.id = some w ∧
    ((AddWebsite (Start NewMonitorEngine) sampleSite).running = true ∧
     sampleSite.enabled = true ∧
     (AddWebsite (Start NewMonitorEngine) sampleSite).loops sampleSite.id = false) := by
  refine ⟨rfl, rfl, ?_, rfl, rfl, rfl⟩
  simp [AddWebsite]

/-- The previous-status table holding `"up"` for `website_1` only. -/
def prevTableUp : PrevStatusTable :=
  fun k => if k = "website_1" then some "up" else none

/-- A registry with no websites at all. -/
def emptyRegistry : Registry := fun _ => none

/-- A registry holding `sampleSite` under its id. -/
def sampleRegistry : Registry :=
  fun k => if k = "website_1" then some sampleSite else none

/-- A `down` result for `website_1`. -/
def downResult : CheckResult :=
  { websiteID := "website_1", status := "down", responseTime := 0
    timestamp := 100, error := some "timeout" }

/-- A first `up` result for a target never observed before. -/
def firstResult : CheckResult :=
  { websiteID := "website_9", status := "up", responseTime := 55
    timestamp := 40, error := none }

/-- C1 counterexample: a previous status exists (`"up"`) and differs
from the new status (`"down"`), yet no transition event is produced,
because the target is no longer present in the registry — the claimed
iff omits the registry-presence condition. -/
theorem transition_despite_prev_diff_no_event :
    prevTableUp downResult.websiteID = some "up" ∧
    "up" ≠ downResult.status ∧
    transitionEventOf prevTableUp emptyRegistry downResult = none := by
  refine ⟨by decide, by decide, by decide⟩

/-- C1 (amended): a transition event is produced for a drained result
iff a previous status exists for the target, differs from the new
status, and the target is still present in the registry; the first
result ever observed for a target never produces an event; and the
previous-status table is set to the new status for the target after
every result, whether or not an event fired. -/
theorem transition_detection (prev : PrevStatusTable) (reg : Registry) (r : CheckResult) :
    ((transitionEventOf prev reg r).isSome ↔
      (∃ p, prev r.websiteID = some p ∧ p ≠ r.status) ∧ (reg r.websiteID).isSome) ∧
    (prev r.websiteID = none → transitionEventOf prev reg r = none) ∧
    updatePrevStatus prev r r.websiteID = some r.status := by
  refine ⟨?_, ?_, ?_⟩
  · rcases hp : prev r.websiteID with _ | p
    · simp [transitionEventOf, hp]
    · by_cases hne : p = r.status
      · subst hne
        simp [transitionEventOf, hp]
      · rcases hr : reg r.websiteID with _ | w <;>
          simp [transitionEventOf, hp, hne, hr]
  · intro h
    simp [transitionEventOf, h]
  · simp [updatePrevStatus]

/-- C1 witness: the amended behaviour at concrete inputs — the first
result for `website_9` produces no event and the table is then set to
its status. -/
theorem transition_detection_witness :
    prevTableUp firstResult.websiteID = none ∧
    transitionEventOf prevTableUp sampleRegistry firstResult = none ∧
    updatePrevStatus prevTableUp firstResult firstResult.websiteID = some firstResult.status :=
  ⟨by decide,
   (transition_detection prevTableUp sampleRegistry firstResult).2.1 (by decide),
   (transition_detection prevTableUp sampleRegistry firstResult).2.2⟩

/-- The dispatcher state before any notification was ever sent. -/
def emptyNM : NotificationManagerState :=
  { lastNotified := fun _ => none, eventQueue := [] }

/-- A down-transition event for `website_1` at time 60. -/
def ev1 : StatusChangeEvent :=
  { websiteID := "website_1", websiteName := "Example"
    websiteURL := "https://www.example.com", oldStatus := "up"
    newStatus := "down", responseTime := 0, timestamp := 60
    emails := ["ops@example.com"], slackWebhook := "" }

/-- An up-transition event for the same target at time 190, 130 seconds
after `ev1`. -/
def ev2 : StatusChangeEvent :=
  { ev1 with
    oldStatus := "down"
    newStatus := "up"
    responseTime := 80
    timestamp := 190 }

/-- Helper: a throttled event leaves the dispatcher state unchanged. -/
theorem sendStatusChange_of_throttled (st : NotificationManagerState) (now : Int)
    (e : StatusChangeEvent) (h : throttledAt st now e.websiteID = true) :
    SendStatusChange st now e = st := by
  simp [SendStatusChange, h]

/-- Helper: a non-throttled event with room in the queue is appended and
stamps the throttle table for its target. -/
theorem sendStatusChange_of_free (st : NotificationManagerState) (now : Int)
    (e : StatusChangeEvent) (h : throttledAt st now e.websiteID = false)
    (hroom : st.eventQueue.length < eventQueueCapacity) :
    SendStatusChange st now e
      = { lastNotified := fun k => if k = e.websiteID then some now else st.lastNotified k
          eventQueue := st.eventQueue ++ [e] } := by
  simp [SendStatusChange, h, hroom]

/-- C2: a throttled event (notification for the same target recorded
within the last 300 seconds) is dropped with the whole state — queue and
throttle timestamp — unchanged; a non-throttled event with room in the
queue is appended and sets the throttle timestamp for its target (and
only its target) to the current time; with a full queue the event is
dropped with the state unchanged.  Consequently two events for the same
target less than 300 seconds apart, starting from no recorded
notification and a non-full queue, enqueue exactly the first one. -/
theorem sendStatusChange_throttle (st : NotificationManagerState)
    (now t₁ t₂ : Int) (e e₁ e₂ : StatusChangeEvent) :
    (∀ tprev, st.lastNotified e.websiteID = some tprev → now - tprev < 300 →
      SendStatusChange st now e = st) ∧
    (throttledAt st now e.websiteID = false →
      st.eventQueue.length < eventQueueCapacity →
      (SendStatusChange st now e).eventQueue = st.eventQueue ++ [e] ∧
      (SendStatusChange st now e).lastNotified e.websiteID = some now ∧
      ∀ k, k ≠ e.websiteID → (SendStatusChange st now e).lastNotified k = st.lastNotified k) ∧
    (throttledAt st now e.websiteID = false →
      ¬ st.eventQueue.length < eventQueueCapacity →
      SendStatusChange st now e = st) ∧
    (st.lastNotified e₁.websiteID = none → e₂.websiteID = e₁.websiteID →
      st.eventQueue.length < eventQueueCapacity → t₁ ≤ t₂ → t₂ - t₁ < 300 →
      (SendStatusChange (SendStatusChange st t₁ e₁) t₂ e₂).eventQueue = st.eventQueue ++ [e₁] ∧
      (SendStatusChange (SendStatusChange st t₁ e₁) t₂ e₂).lastNotified e₁.websiteID = some t₁) := by
  refine ⟨?_, ?_, ?_, ?_⟩
  · intro tprev hprev hlt
    exact sendStatusChange_of_throttled st now e (by simp [throttledAt, hprev, hlt])
  · intro ht hroom
    rw [sendStatusChange_of_free st now e ht hroom]
    refine ⟨rfl, by simp, ?_⟩
    intro k hk
    simp [hk]
  · intro ht hfull
    simp [SendStatusChange, ht, hfull]
  · intro hnone hsame hroom hle hlt
    have ht1 : throttledAt st t₁ e₁.websiteID = false := by
      simp [throttledAt, hnone]
    rw [sendStatusChange_of_free st t₁ e₁ ht1 hroom]
    have ht2 : throttledAt
        { lastNotified := fun k => if k = e₁.websiteID then some t₁ else st.lastNotified k
          eventQueue := st.eventQueue ++ [e₁] } t₂ e₂.websiteID = true := by
      simp [throttledAt, hsame, hlt]
    rw [sendStatusChange_of_throttled _ t₂ e₂ ht2]
    exact ⟨rfl, by simp⟩

/-- C2 witness: starting with no recorded notification and an empty
queue, `ev1` at time 60 and `ev2` at time 190 (130 seconds apart) leave
exactly `ev1` in the queue, with the throttle timestamp still 60. -/
theorem sendStatusChange_throttle_witness :
    emptyNM.lastNotified ev1.websiteID = none ∧
    ev2.websiteID = ev1.websiteID ∧
    emptyNM.eventQueue.length < eventQueueCapacity ∧
    (60 : Int) ≤ 190 ∧ (190 : Int) - 60 < 300 ∧
    ((SendStatusChange (SendStatusChange emptyNM 60 ev1) 190 ev2).eventQueue = [ev1] ∧
     (SendStatusChange (SendStatusChange emptyNM 60 ev1) 190 ev2).lastNotified ev1.websiteID
       = some 60) :=
  ⟨rfl, rfl, by decide, by decide, by decide,
   (sendStatusChange_throttle emptyNM 0 60 190 ev1 ev1 ev2).2.2.2
     rfl rfl (by decide) (by decide) (by decide)⟩

/-- Helper: an update for another id leaves a registry entry alone. -/
theorem updateWebsiteStatus_ne (reg : Registry) {k id : String}
    (s : String) (rt t : Int) (h : k ≠ id) :
    UpdateWebsiteStatus reg id s rt t k = reg k := by
  simp [UpdateWebsiteStatus, h]

/-- Helper: an update at the id of a present entry overwrites its
status, response time and check time. -/
theorem updateWebsiteStatus_eq (reg : Registry) {id : String} {w : Website}
    (s : String) (rt t : Int) (hw : reg id = some w) :
    UpdateWebsiteStatus reg id s rt t id
      = some { w with status := s, lastResponseTime := rt, lastCheckTime := t } := by
  simp [UpdateWebsiteStatus, hw]

/-- Helper: `UpdateWebsiteStatus` never removes a present entry. -/
theorem updateWebsiteStatus_isSome (reg : Registry) (id' s : String) (rt t : Int)
    {id : String} (h : (reg id).isSome) :
    ((UpdateWebsiteStatus reg id' s rt t) id).isSome := by
  by_cases hk : id = id'
  · subst hk
    obtain ⟨w, hw⟩ := Option.isSome_iff_exists.mp h
    rw [updateWebsiteStatus_eq reg s rt t hw]
    rfl
  · rw [updateWebsiteStatus_ne reg s rt t hk]
    exact h

/-- Helper: results for other targets never touch the entry of `id`. -/
theorem processResults_other (reg : Registry) (l : List (CheckResult × Int))
    (id : String) (h : ∀ p ∈ l, p.1.websiteID ≠ id) :
    processResults reg l id = reg id := by
  induction l generalizing reg with
  | nil => rfl
  | cons p tl ih =>
      have hstep : processResults reg (p :: tl)
          = processResults (UpdateWebsiteStatus reg p.1.websiteID p.1.status p.1.responseTime p.2) tl := rfl
      rw [hstep, ih _ (fun q hq => h q (List.mem_cons_of_mem _ hq))]
      exact updateWebsiteStatus_ne reg p.1.status p.1.responseTime p.2
        (Ne.symm (h p (List.mem_cons_self _ _)))

/-- Helper: processing never removes a registered target. -/
theorem processResults_isSome (reg : Registry) (l : List (CheckResult × Int))
    {id : String} (h : (reg id).isSome) :
    ((processResults reg l) id).isSome := by
  induction l generalizing reg with
  | nil => exact h
  | cons p tl ih =>
      exact ih _ (updateWebsiteStatus_isSome reg p.1.websiteID p.1.status p.1.responseTime p.2 h)

/-- C4: for a target registered throughout, after processing a sequence
of results whose last result for that target is `r`, processed at time
`t`, the registry record for the target carries the status and response
time of `r` and a last-check time equal to `t` — the check time is
overwritten at each processed result, so it ends at the time of the last
one. -/
theorem registry_tracks_last_outcome (reg : Registry)
    (pre post : List (CheckResult × Int)) (r : CheckResult) (t : Int) (id : String)
    (hreg : (reg id).isSome) (hid : r.websiteID = id)
    (hpost : ∀ p ∈ post, p.1.websiteID ≠ id) :
    ∃ w, processResults reg (pre ++ (r, t) :: post) id = some w ∧
      w.status = r.status ∧ w.lastResponseTime = r.responseTime ∧
      w.lastCheckTime = t := by
  subst hid
  have h1 : processResults reg (pre ++ (r, t) :: post)
      = processResults
          (UpdateWebsiteStatus (processResults reg pre) r.websiteID r.status r.responseTime t)
          post := by
    unfold processResults
    rw [List.foldl_append, List.foldl_cons]
  rw [h1, processResults_other _ _ _ hpost]
  obtain ⟨w0, hw0⟩ := Option.isSome_iff_exists.mp (processResults_isSome reg pre hreg)
  exact ⟨{ w0 with status := r.status, lastResponseTime := r.responseTime, lastCheckTime := t },
    updateWebsiteStatus_eq _ _ _ _ hw0, rfl, rfl, rfl⟩

/-- C4 witness: processing the single result `downResult` at time 50 for
the registered `sampleSite` leaves the registry holding status `"down"`,
response time 0 and last-check time 50. -/
theorem registry_tracks_last_outcome_witness :
    (sampleRegistry "website_1").isSome ∧ downResult.websiteID = "website_1" ∧
    ∃ w, processResults sampleRegistry [(downResult, 50)] "website_1" = some w ∧
      w.status = downResult.status ∧ w.lastResponseTime = downResult.responseTime ∧
      w.lastCheckTime = 50 :=
  ⟨by decide, rfl,
   registry_tracks_last_outcome sampleRegistry [] [] downResult 50 "website_1"
     (by decide) rfl (by simp)⟩

end UptimeMonitor
